import Mathlib

/-!
# Order-lookup relay: verification development

A shallow embedding of the two services of the repository

* `client/client.go`   (the Front Relay: HTTP lookup, cache, two bus listeners), and
* `delivery/delivery.go` (the Backing Resolver: bus listener in front of the store),

followed by theorems about them.

Conventions of the embedding.

* A Go `string` and a Go `[]byte` are both immutable byte strings here and are modelled by
  one type, so `[]byte(s)` and `string(b)` are the identity.
* The process-wide `cache` map (guarded by `mu`) and the sequence of operations issued on the
  NATS connection `nc` form the explicit state `World`; each handler is a function on it.
  Handlers are atomic steps; the mutex and goroutine interleavings are not modelled.
* The libraries the code calls (`encoding/json`, `nats.go`, `database/sql`) are external
  collaborators: what each call returns is supplied by the records `JsonLib`, `NatsConn` and
  `Database`, and every call made on the connection is appended to the trace.
* `log.Printf` lines have no effect on any modelled state and are omitted.
-/

/-! ## Data model (identical declarations in `client.go` and `delivery.go`) -/

/-- Byte strings: Go `string` and `[]byte`. -/
abbrev Bytes := String

/-- Go `error` values, identified by their message. -/
abbrev Err := String

/-- Go `float64`, carried as its IEEE-754 binary64 bit pattern. -/
structure Float64 where
  bits : Nat
deriving DecidableEq, Repr

/-- Go `time.Time`: seconds and nanoseconds since January 1 of year 1, with a zone offset. -/
structure Time where
  sec : Int
  nsec : Nat
  zoneOffset : Int
deriving DecidableEq, Repr

structure Delivery where
  Name : String
  Phone : String
  Zip : String
  City : String
  Address : String
  Region : String
  Email : String
deriving DecidableEq, Repr

structure Payment where
  Transaction : String
  RequestID : String
  Currency : String
  Provider : String
  Amount : Float64
  PaymentDT : Int
  Bank : String
  DeliveryCost : Float64
  GoodsTotal : Float64
  CustomFee : Float64
deriving DecidableEq, Repr

structure Item where
  ChrtID : Int
  TrackNumber : String
  Price : Float64
  RID : String
  Name : String
  Sale : Float64
  Size : String
  TotalPrice : Float64
  NMID : Int
  Brand : String
  Status : Int
deriving DecidableEq, Repr

structure Order where
  OrderUID : String
  TrackNumber : String
  Entry : String
  Delivery : Delivery
  Payment : Payment
  Items : List Item
  Locale : String
  InternalSignature : String
  CustomerID : String
  DeliveryService : String
  ShardKey : String
  SMID : Int
  DateCreated : Time
  OofShard : String
deriving DecidableEq, Repr

/-- The body of a successful HTTP answer; `Order` is a Go pointer, hence optional. -/
structure Response where
  Success : Bool
  Order : Option Order
deriving DecidableEq, Repr

/-! ## External collaborators -/

/-- A message of the bus (`nats.Msg`). -/
structure Msg where
  Subject : String
  Reply : String
  Data : Bytes
deriving DecidableEq, Repr

/-- One operation issued on the NATS connection. -/
inductive BusOp where
  | subscribeSync (subject : String)
  | publish (subject : String) (data : Bytes)
  | nextMsg (subject : String) (timeout : Nat)
  | unsubscribe (subject : String)
deriving DecidableEq, Repr

/-- Results of the `encoding/json` calls the code makes. -/
structure JsonLib where
  /-- Result of `json.Unmarshal(data, &order)` on a zero `Order`. -/
  unmarshalOrder : Bytes → Except Err Order
  /-- Result of `json.Marshal(order)`. -/
  marshalOrder : Order → Except Err Bytes
  /-- Bytes `json.NewEncoder(w).Encode(resp)` writes, or its encoding error. -/
  encodeResponse : Response → Except Err Bytes

/-- Results of the calls made on the NATS connection; `none` is a nil error. -/
structure NatsConn where
  /-- Error of `nc.SubscribeSync(subject)`. -/
  subscribeSync : String → Option Err
  /-- Error of `nc.Publish(subject, data)`. -/
  publish : String → Bytes → Option Err
  /-- What `sub.NextMsg(timeout)` returns on a subscription to `subject`. -/
  nextMsg : String → Nat → Except Err Msg

/-- Outcome of `db.QueryRow(...)` followed by `row.Scan(...)`. -/
inductive ScanResult where
  | row (order : Order)
  | errNoRows
  | failure (err : Err)
deriving DecidableEq, Repr

/-- The relational store behind `db`. -/
structure Database where
  /-- Result of `SELECT * FROM orders WHERE order_uid = $1` scanned into an `Order`. -/
  queryRow : String → ScanResult

/-- Go `time.Millisecond`, in nanoseconds. -/
def Millisecond : Nat := 1000000

def StatusOK : Nat := 200

def StatusBadRequest : Nat := 400

def StatusInternalServerError : Nat := 500

/-! ## The cache: `map[string]Order` -/

/-- A Go map from order identifier to order, as a list of entries with distinct keys. -/
abbrev Cache := List (String × Order)

/-- Map read `cache[key]` with the comma-ok form. -/
def Cache.get : Cache → String → Option Order
  | [], _ => none
  | (k, v) :: rest, key => if k = key then some v else Cache.get rest key

/-- Map write `cache[key] = value`. -/
def Cache.put : Cache → String → Order → Cache
  | [], key, value => [(key, value)]
  | (k, v) :: rest, key, value =>
      if k = key then (key, value) :: rest else (k, v) :: Cache.put rest key value

/-- The state the handlers act on: the cache and the operations issued on the bus so far. -/
structure World where
  cache : Cache
  trace : List BusOp
deriving DecidableEq, Repr

/-- State at process start: `cache = make(map[string]Order)`, nothing issued. -/
def World.init : World := ⟨[], []⟩

/-- The messages published in a trace, as (subject, payload) pairs in order. -/
def publishes : List BusOp → List (String × Bytes)
  | [] => []
  | BusOp.publish subject data :: rest => (subject, data) :: publishes rest
  | _ :: rest => publishes rest

/-- Call `nc.Publish(subject, data)`. -/
def natsPublish (nc : NatsConn) (subject : String) (data : Bytes) (trace : List BusOp) :
    Option Err × List BusOp :=
  (nc.publish subject data, trace ++ [BusOp.publish subject data])

/-- Call `nc.SubscribeSync(subject)`. -/
def natsSubscribeSync (nc : NatsConn) (subject : String) (trace : List BusOp) :
    Option Err × List BusOp :=
  (nc.subscribeSync subject, trace ++ [BusOp.subscribeSync subject])

/-- Call `sub.NextMsg(timeout)` on a subscription to `subject`. -/
def subNextMsg (nc : NatsConn) (subject : String) (timeout : Nat) (trace : List BusOp) :
    Except Err Msg × List BusOp :=
  (nc.nextMsg subject timeout, trace ++ [BusOp.nextMsg subject timeout])

/-- Call `sub.Unsubscribe()` on a subscription to `subject`. -/
def subUnsubscribe (subject : String) (trace : List BusOp) : List BusOp :=
  trace ++ [BusOp.unsubscribe subject]

/-! ## `client/client.go` -/

namespace Client

/-- The libraries the Front Relay calls. -/
structure Env where
  json : JsonLib
  nc : NatsConn

/-- What the handler left in the `http.ResponseWriter`. -/
structure HttpResponse where
  status : Nat
  header : List (String × String)
  body : Bytes
deriving DecidableEq, Repr

/-- The library call `http.Error(w, msg, code)`. -/
def httpError (msg : String) (code : Nat) : HttpResponse :=
  { status := code
    header := [("Content-Type", "text/plain; charset=utf-8"),
               ("X-Content-Type-Options", "nosniff")]
    body := msg ++ "\n" }

/-- Function `sendOrderResponse(order Order, replySubject string)` of `client.go`. -/
def sendOrderResponse (env : Env) (order : Order) (replySubject : String) (w : World) : World :=
  match env.json.marshalOrder order with
  | .error _ => w
  | .ok orderJSON => { w with trace := (natsPublish env.nc replySubject orderJSON w.trace).2 }

/-- Function `getOrder(orderUID string) (*Order, error)`. The deferred `sub.Unsubscribe()`
runs on every return that follows a successful `SubscribeSync`. -/
def getOrder (env : Env) (orderUID : String) (w : World) : Except Err Order × World :=
  match w.cache.get orderUID with
  | some order => (.ok order, w)
  | none =>
    match natsSubscribeSync env.nc "order_response" w.trace with
    | (some err, t1) => (.error err, { w with trace := t1 })
    | (none, t1) =>
      match natsPublish env.nc "order_request" orderUID t1 with
      | (some err, t2) => (.error err, { w with trace := subUnsubscribe "order_response" t2 })
      | (none, t2) =>
        match subNextMsg env.nc "order_response" (500 * Millisecond) t2 with
        | (.error err, t3) => (.error err, { w with trace := subUnsubscribe "order_response" t3 })
        | (.ok msg, t3) =>
          match env.json.unmarshalOrder msg.Data with
          | .error err => (.error err, { w with trace := subUnsubscribe "order_response" t3 })
          | .ok orderResp =>
            (.ok orderResp, { w with trace := subUnsubscribe "order_response" t3 })

/-- Function `orderHandler(w, r)`; `orderUID` is `r.URL.Query().Get("orderUID")`. -/
def orderHandler (env : Env) (orderUID : String) (w : World) : HttpResponse × World :=
  if orderUID = "" then
    (httpError "Empty order UID" StatusBadRequest, w)
  else
    match getOrder env orderUID w with
    | (.error _, w1) => ({ status := StatusInternalServerError, header := [], body := "" }, w1)
    | (.ok order, w1) =>
      let resp : Response := { Success := true, Order := some order }
      match env.json.encodeResponse resp with
      | .error _ =>
        ({ status := StatusInternalServerError
           header := [("Content-Type", "application/json")]
           body := "" }, w1)
      | .ok out =>
        ({ status := StatusOK, header := [("Content-Type", "application/json")], body := out }, w1)

/-- The callback `main` subscribes to `order_request` (client.go, lines 92-111). -/
def onOrderRequest (env : Env) (msg : Msg) (w : World) : World :=
  match env.json.unmarshalOrder msg.Data with
  | .error _ => w
  | .ok orderReq =>
    match w.cache.get orderReq.OrderUID with
    | some order => sendOrderResponse env order msg.Reply w
    | none => { w with trace := (natsPublish env.nc "order_query" msg.Data w.trace).2 }

/-- The callback `main` subscribes to `order_response` (client.go, lines 113-123). -/
def onOrderResponse (env : Env) (msg : Msg) (w : World) : World :=
  match env.json.unmarshalOrder msg.Data with
  | .error _ => w
  | .ok orderResp => { w with cache := w.cache.put orderResp.OrderUID orderResp }

/-- One thing that can happen to the running Front Relay. -/
inductive Event where
  | httpLookup (env : Env) (orderUID : String)
  | orderRequest (env : Env) (msg : Msg)
  | orderResponse (env : Env) (msg : Msg)

/-- The Front Relay handling one event. -/
def step (w : World) : Event → World
  | .httpLookup env orderUID => (orderHandler env orderUID w).2
  | .orderRequest env msg => onOrderRequest env msg w
  | .orderResponse env msg => onOrderResponse env msg w

/-- The Front Relay handling a sequence of events, oldest first. -/
def run (w : World) (events : List Event) : World :=
  events.foldl step w

end Client

/-! ## `delivery/delivery.go` -/

namespace Delivery

/-- The libraries the Backing Resolver calls. -/
structure Env where
  json : JsonLib
  nc : NatsConn
  db : Database

/-- Function `getOrderFromDatabase(orderUID string) (*Order, error)`: `(nil, nil)` when the
scan reports `sql.ErrNoRows`, `(nil, err)` on any other error, `(&order, nil)` otherwise. -/
def getOrderFromDatabase (env : Env) (orderUID : String) : Except Err (Option Order) :=
  match env.db.queryRow orderUID with
  | .failure err => .error err
  | .errNoRows => .ok none
  | .row order => .ok (some order)

set_option linter.unusedVariables false in
/-- Function `sendOrderResponse(orderData *Order, replySubject string) error`. -/
def sendOrderResponse (env : Env) (orderData : Order) (replySubject : String)
    (trace : List BusOp) : Option Err × List BusOp :=
  match env.json.marshalOrder orderData with
  | .error err => (some err, trace)
  | .ok orderJSON => natsPublish env.nc "order_response" orderJSON trace

/-- Function `handleOrderRequest(msg *nats.Msg)`; the state of this process is the trace of
operations issued on its connection. -/
def handleOrderRequest (env : Env) (msg : Msg) (trace : List BusOp) : List BusOp :=
  let orderUID := msg.Data
  match getOrderFromDatabase env orderUID with
  | .error _ => trace
  | .ok none => trace
  | .ok (some orderData) => (sendOrderResponse env orderData msg.Reply trace).2

end Delivery

/-! ## Concrete collaborators used to evaluate the handlers -/

/-- The zero value of `Order`. -/
def zeroOrder : Order :=
  { OrderUID := "", TrackNumber := "", Entry := ""
    Delivery :=
      { Name := "", Phone := "", Zip := "", City := "", Address := "", Region := "", Email := "" }
    Payment :=
      { Transaction := "", RequestID := "", Currency := "", Provider := "", Amount := ⟨0⟩
        PaymentDT := 0, Bank := "", DeliveryCost := ⟨0⟩, GoodsTotal := ⟨0⟩, CustomFee := ⟨0⟩ }
    Items := [], Locale := "", InternalSignature := "", CustomerID := "", DeliveryService := ""
    ShardKey := "", SMID := 0, DateCreated := ⟨0, 0, 0⟩, OofShard := "" }

/-- An order whose only non-zero field is its identifier. -/
def sampleOrder : Order := { zeroOrder with OrderUID := "b563feb7b2b84b6test" }

/-- An older record stored under the same identifier as `sampleOrder`. -/
def staleOrder : Order := { sampleOrder with TrackNumber := "WBILMTESTTRACK" }

/-- The text `json.Marshal` produces for `sampleOrder`. -/
def sampleOrderJSON : Bytes :=
  "\x7b\"order_uid\":\"b563feb7b2b84b6test\",\"track_number\":\"\",\"entry\":\"\"," ++
  "\"delivery\":\x7b\"name\":\"\",\"phone\":\"\",\"zip\":\"\",\"city\":\"\",\"address\":\"\"," ++
  "\"region\":\"\",\"email\":\"\"\x7d," ++
  "\"payment\":\x7b\"transaction\":\"\",\"request_id\":\"\",\"currency\":\"\",\"provider\":\"\"," ++
  "\"amount\":0,\"payment_dt\":0,\"bank\":\"\",\"delivery_cost\":0,\"goods_total\":0," ++
  "\"custom_fee\":0\x7d," ++
  "\"items\":null,\"locale\":\"\",\"internal_signature\":\"\",\"customer_id\":\"\"," ++
  "\"delivery_service\":\"\",\"shardkey\":\"\",\"sm_id\":0," ++
  "\"date_created\":\"0001-01-01T00:00:00Z\",\"oof_shard\":\"\"\x7d"

/-- The text `json.Marshal` produces for `staleOrder`. -/
def staleOrderJSON : Bytes :=
  "\x7b\"order_uid\":\"b563feb7b2b84b6test\",\"track_number\":\"WBILMTESTTRACK\",\"entry\":\"\"," ++
  "\"delivery\":\x7b\"name\":\"\",\"phone\":\"\",\"zip\":\"\",\"city\":\"\",\"address\":\"\"," ++
  "\"region\":\"\",\"email\":\"\"\x7d," ++
  "\"payment\":\x7b\"transaction\":\"\",\"request_id\":\"\",\"currency\":\"\",\"provider\":\"\"," ++
  "\"amount\":0,\"payment_dt\":0,\"bank\":\"\",\"delivery_cost\":0,\"goods_total\":0," ++
  "\"custom_fee\":0\x7d," ++
  "\"items\":null,\"locale\":\"\",\"internal_signature\":\"\",\"customer_id\":\"\"," ++
  "\"delivery_service\":\"\",\"shardkey\":\"\",\"sm_id\":0," ++
  "\"date_created\":\"0001-01-01T00:00:00Z\",\"oof_shard\":\"\"\x7d"

/-- A stand-in for `encoding/json` that knows the two sample orders: it decodes their texts,
encodes them back, and reports every other payload as not being JSON for an `Order`, which
is what `json.Unmarshal` does with a bare identifier such as `b563feb7b2b84b6test`
(`invalid character 'b' looking for beginning of value`). -/
def sampleJson : JsonLib :=
  { unmarshalOrder := fun data =>
      if data = sampleOrderJSON then .ok sampleOrder
      else if data = staleOrderJSON then .ok staleOrder
      else .error "invalid character looking for beginning of value"
    marshalOrder := fun order =>
      if order = sampleOrder then .ok sampleOrderJSON
      else if order = staleOrder then .ok staleOrderJSON
      else .error "json: unsupported value"
    encodeResponse := fun resp =>
      match resp.Order with
      | none => .ok "\x7b\"success\":true,\"order\":null\x7d\n"
      | some order =>
        if order = sampleOrder then
          .ok ("\x7b\"success\":true,\"order\":" ++ sampleOrderJSON ++ "\x7d\n")
        else if order = staleOrder then
          .ok ("\x7b\"success\":true,\"order\":" ++ staleOrderJSON ++ "\x7d\n")
        else .error "json: unsupported value" }

/-- A bus on which every call succeeds and the awaited subscription delivers `msg`. -/
def busDelivering (msg : Msg) : NatsConn :=
  { subscribeSync := fun _ => none
    publish := fun _ _ => none
    nextMsg := fun _ _ => .ok msg }

/-- A bus on which every call succeeds but no message arrives before the timeout. -/
def busSilent : NatsConn :=
  { subscribeSync := fun _ => none
    publish := fun _ _ => none
    nextMsg := fun _ _ => .error "nats: timeout" }

/-- A store holding exactly one order. -/
def storeWith (order : Order) : Database :=
  { queryRow := fun orderUID => if orderUID = order.OrderUID then .row order else .errNoRows }

/-- A store whose queries fail. -/
def storeDown : Database :=
  { queryRow := fun _ => .failure "pq: connection refused" }

/-- A reply on `order_response` carrying `sampleOrder`. -/
def sampleReply : Msg :=
  { Subject := "order_response", Reply := "", Data := sampleOrderJSON }

/-- A request on `order_request` carrying a bare identifier and a reply address. -/
def rawRequest : Msg :=
  { Subject := "order_request", Reply := "_INBOX.requester", Data := "b563feb7b2b84b6test" }

/-- A request on `order_request` carrying a JSON-encoded order and a reply address. -/
def jsonRequest : Msg :=
  { Subject := "order_request", Reply := "_INBOX.requester", Data := sampleOrderJSON }

/-- A Front Relay whose bus delivers `sampleReply` to whoever waits. -/
def relayEnv : Client.Env := { json := sampleJson, nc := busDelivering sampleReply }

/-- A Front Relay whose bus stays silent. -/
def relayEnvSilent : Client.Env := { json := sampleJson, nc := busSilent }

/-- A Backing Resolver in front of a store that holds `sampleOrder`. -/
def resolverEnv : Delivery.Env :=
  { json := sampleJson, nc := busSilent, db := storeWith sampleOrder }

/-- A Backing Resolver in front of a failing store. -/
def resolverEnvDown : Delivery.Env :=
  { json := sampleJson, nc := busSilent, db := storeDown }

/-- A stored order whose payment amount is NaN (bit pattern `0x7FF8000000000000`), as a
`float8` column holding `NaN` scans into a Go `float64`; `json.Marshal` rejects such a value
(`json: unsupported value: NaN`), and so does `sampleJson`. -/
def nanOrder : Order :=
  { sampleOrder with Payment := { zeroOrder.Payment with Amount := ⟨0x7FF8000000000000⟩ } }

/-- A Backing Resolver in front of a store that holds `nanOrder`. -/
def resolverEnvNaN : Delivery.Env :=
  { json := sampleJson, nc := busSilent, db := storeWith nanOrder }

/-- A Front Relay state that has `staleOrder` cached. -/
def warmWorld : World := { cache := [("b563feb7b2b84b6test", staleOrder)], trace := [] }

/-! ## Lemmas about the cache -/

theorem Cache.get_put_same (c : Cache) (key : String) (value : Order) :
    (c.put key value).get key = some value := by
  induction c with
  | nil => simp [Cache.put, Cache.get]
  | cons entry rest ih =>
    obtain ⟨k, v⟩ := entry
    by_cases h : k = key
    · simp [Cache.put, Cache.get, h]
    · simp [Cache.put, Cache.get, h, ih]

theorem Cache.get_put_other (c : Cache) (key other : String) (value : Order)
    (h : other ≠ key) : (c.put key value).get other = c.get other := by
  induction c with
  | nil => simp [Cache.put, Cache.get, Ne.symm h]
  | cons entry rest ih =>
    obtain ⟨k, v⟩ := entry
    by_cases hk : k = key
    · subst hk
      simp [Cache.put, Cache.get, Ne.symm h]
    · simp [Cache.put, Cache.get, hk, ih]

theorem Cache.mem_of_get (c : Cache) (key : String) (value : Order)
    (h : c.get key = some value) : (key, value) ∈ c := by
  induction c with
  | nil => simp [Cache.get] at h
  | cons entry rest ih =>
    obtain ⟨k, v⟩ := entry
    by_cases hk : k = key
    · simp [Cache.get, hk] at h
      simp [hk, h]
    · simp [Cache.get, hk] at h
      exact List.mem_cons_of_mem _ (ih h)

theorem Cache.mem_put (c : Cache) (key : String) (value : Order) (entry : String × Order)
    (h : entry ∈ c.put key value) : entry = (key, value) ∨ entry ∈ c := by
  induction c with
  | nil => simpa [Cache.put] using h
  | cons head rest ih =>
    obtain ⟨k, v⟩ := head
    by_cases hk : k = key
    · simp [Cache.put, hk] at h
      rcases h with h | h
      · exact Or.inl h
      · exact Or.inr (List.mem_cons_of_mem _ h)
    · simp [Cache.put, hk] at h
      rcases h with h | h
      · exact Or.inr (by simp [h])
      · rcases ih h with h1 | h1
        · exact Or.inl h1
        · exact Or.inr (List.mem_cons_of_mem _ h1)

/-! ## Lemmas about the handlers -/

theorem publishes_append (t1 t2 : List BusOp) :
    publishes (t1 ++ t2) = publishes t1 ++ publishes t2 := by
  induction t1 with
  | nil => simp [publishes]
  | cons op rest ih => cases op <;> simp [publishes, ih]

theorem Client.getOrder_cache (env : Client.Env) (orderUID : String) (w : World) :
    (Client.getOrder env orderUID w).2.cache = w.cache := by
  unfold Client.getOrder natsSubscribeSync natsPublish subNextMsg
  repeat' split
  all_goals simp_all

theorem Client.orderHandler_cache (env : Client.Env) (orderUID : String) (w : World) :
    (Client.orderHandler env orderUID w).2.cache = w.cache := by
  have h := Client.getOrder_cache env orderUID w
  unfold Client.orderHandler
  split
  · rfl
  · split
    · simp_all
    · dsimp only
      split <;> simp_all

theorem Client.onOrderRequest_cache (env : Client.Env) (msg : Msg) (w : World) :
    (Client.onOrderRequest env msg w).cache = w.cache := by
  unfold Client.onOrderRequest Client.sendOrderResponse
  repeat' split
  all_goals simp_all

theorem Cache.get_put_isSome (c : Cache) (key other : String) (value : Order)
    (h : (c.get other).isSome) : ((c.put key value).get other).isSome := by
  by_cases hk : other = key
  · subst hk
    simp [Cache.get_put_same]
  · rw [Cache.get_put_other c key other value hk]
    exact h

theorem Client.onOrderResponse_cache (env : Client.Env) (msg : Msg) (w : World) :
    (Client.onOrderResponse env msg w).cache = w.cache ∨
    ∃ order, (Client.onOrderResponse env msg w).cache = w.cache.put order.OrderUID order := by
  unfold Client.onOrderResponse
  split
  · exact Or.inl rfl
  · exact Or.inr ⟨_, rfl⟩

theorem Client.step_cache (w : World) (event : Client.Event) :
    (Client.step w event).cache = w.cache ∨
    ∃ order, (Client.step w event).cache = w.cache.put order.OrderUID order := by
  cases event with
  | httpLookup env orderUID => exact Or.inl (Client.orderHandler_cache env orderUID w)
  | orderRequest env msg => exact Or.inl (Client.onOrderRequest_cache env msg w)
  | orderResponse env msg => exact Client.onOrderResponse_cache env msg w

theorem Client.step_entries_agree (w : World) (event : Client.Event)
    (h : ∀ entry ∈ w.cache, entry.2.OrderUID = entry.1) :
    ∀ entry ∈ (Client.step w event).cache, entry.2.OrderUID = entry.1 := by
  intro entry hmem
  rcases Client.step_cache w event with hc | ⟨order, hc⟩
  · rw [hc] at hmem
    exact h entry hmem
  · rw [hc] at hmem
    rcases Cache.mem_put _ _ _ _ hmem with heq | hold
    · rw [heq]
    · exact h entry hold

theorem Client.step_keeps_keys (w : World) (event : Client.Event) (key : String)
    (h : (w.cache.get key).isSome) : ((Client.step w event).cache.get key).isSome := by
  rcases Client.step_cache w event with hc | ⟨order, hc⟩
  · rw [hc]
    exact h
  · rw [hc]
    exact Cache.get_put_isSome _ _ _ _ h

theorem Client.run_entries_agree (events : List Client.Event) (w : World)
    (h : ∀ entry ∈ w.cache, entry.2.OrderUID = entry.1) :
    ∀ entry ∈ (Client.run w events).cache, entry.2.OrderUID = entry.1 := by
  induction events generalizing w with
  | nil => exact h
  | cons event rest ih => exact ih (Client.step w event) (Client.step_entries_agree w event h)

theorem Client.run_keeps_keys (events : List Client.Event) (w : World) (key : String)
    (h : (w.cache.get key).isSome) : ((Client.run w events).cache.get key).isSome := by
  induction events generalizing w with
  | nil => exact h
  | cons event rest ih => exact ih (Client.step w event) (Client.step_keeps_keys w event key h)

theorem Client.run_append (w : World) (events more : List Client.Event) :
    Client.run w (events ++ more) = Client.run (Client.run w events) more := by
  simp [Client.run, List.foldl_append]

/-- What the Backing Resolver does when the store finds a record that encodes: one publish
of the encoding, on the fixed subject `order_response`. -/
theorem Delivery.handleOrderRequest_found (env : Delivery.Env) (msg : Msg)
    (trace : List BusOp) (order : Order) (orderJSON : Bytes)
    (found : env.db.queryRow msg.Data = .row order)
    (encoded : env.json.marshalOrder order = .ok orderJSON) :
    Delivery.handleOrderRequest env msg trace =
      trace ++ [BusOp.publish "order_response" orderJSON] := by
  simp [Delivery.handleOrderRequest, Delivery.getOrderFromDatabase,
    Delivery.sendOrderResponse, natsPublish, found, encoded]

/-! ## The claims -/

/-- C1. A cache hit issues no bus traffic: when `orderUID` is a key of the cache, `getOrder`
returns exactly the record stored under it, with no error, and leaves the whole state, and
so the trace of bus operations, as it was: no subscribe, no publish, no wait. -/
theorem getOrder_hit_no_bus_traffic (env : Client.Env) (w : World) (orderUID : String)
    (order : Order) (hit : w.cache.get orderUID = some order) :
    Client.getOrder env orderUID w = (.ok order, w) := by
  simp [Client.getOrder, hit]

theorem getOrder_hit_no_bus_traffic_witness :
    warmWorld.cache.get "b563feb7b2b84b6test" = some staleOrder ∧
    Client.getOrder relayEnv "b563feb7b2b84b6test" warmWorld = (.ok staleOrder, warmWorld) :=
  ⟨by simp [warmWorld, Cache.get],
   getOrder_hit_no_bus_traffic relayEnv warmWorld "b563feb7b2b84b6test" staleOrder
     (by simp [warmWorld, Cache.get])⟩

/-- C2, as stated, fails: with an empty cache a lookup of `another-order-uid` succeeds and
returns the order of the first message the `order_response` subscription delivers, here one
whose `order_uid` is `b563feb7b2b84b6test`. -/
theorem getOrder_reply_not_correlated :
    World.init.cache.get "another-order-uid" = none ∧
    (Client.getOrder relayEnv "another-order-uid" World.init).1 = .ok sampleOrder ∧
    sampleOrder.OrderUID ≠ "another-order-uid" := by
  refine ⟨by simp [World.init, Cache.get], ?_, by decide⟩
  simp [Client.getOrder, World.init, Cache.get, natsSubscribeSync, natsPublish, subNextMsg,
    relayEnv, busDelivering, sampleJson, sampleReply]

/-- C2, amended. On a cache miss `getOrder` succeeds with `order` exactly when the
subscription and the publish went through and the message delivered on `order_response`
within 500ms decodes to `order`; the identifier of the returned order is the payload's and
is not compared with the requested one. -/
theorem getOrder_miss_returns_delivered_order (env : Client.Env) (w : World)
    (orderUID : String) (order : Order) (miss : w.cache.get orderUID = none) :
    (Client.getOrder env orderUID w).1 = .ok order ↔
      env.nc.subscribeSync "order_response" = none ∧
      env.nc.publish "order_request" orderUID = none ∧
      ∃ msg, env.nc.nextMsg "order_response" (500 * Millisecond) = .ok msg ∧
        env.json.unmarshalOrder msg.Data = .ok order := by
  unfold Client.getOrder natsSubscribeSync natsPublish subNextMsg
  simp only [miss]
  repeat' split
  all_goals simp_all

theorem getOrder_miss_returns_delivered_order_witness :
    World.init.cache.get "another-order-uid" = none ∧
    relayEnv.nc.nextMsg "order_response" (500 * Millisecond) = .ok sampleReply ∧
    relayEnv.json.unmarshalOrder sampleReply.Data = .ok sampleOrder ∧
    (Client.getOrder relayEnv "another-order-uid" World.init).1 = .ok sampleOrder :=
  have miss : World.init.cache.get "another-order-uid" = none := by
    simp [World.init, Cache.get]
  have hdec : relayEnv.json.unmarshalOrder sampleReply.Data = .ok sampleOrder := by
    simp [relayEnv, sampleJson, sampleReply]
  ⟨miss, rfl, hdec,
   (getOrder_miss_returns_delivered_order relayEnv World.init "another-order-uid" sampleOrder
      miss).mpr ⟨rfl, rfl, sampleReply, rfl, hdec⟩⟩

/-- C3. The code evaluated on a request that carries the reply address `_INBOX.requester`
and an identifier the store resolves: exactly one message is published and its payload is
the JSON encoding of the stored order, but its destination is the fixed subject
`order_response`, not the reply address of the request. -/
theorem handleOrderRequest_ignores_reply_address :
    resolverEnv.db.queryRow rawRequest.Data = .row sampleOrder ∧
    resolverEnv.json.marshalOrder sampleOrder = .ok sampleOrderJSON ∧
    Delivery.handleOrderRequest resolverEnv rawRequest [] =
      [BusOp.publish "order_response" sampleOrderJSON] ∧
    publishes (Delivery.handleOrderRequest resolverEnv rawRequest []) ≠
      [(rawRequest.Reply, sampleOrderJSON)] := by
  have h : Delivery.handleOrderRequest resolverEnv rawRequest [] =
      [BusOp.publish "order_response" sampleOrderJSON] := by
    simp [Delivery.handleOrderRequest, Delivery.getOrderFromDatabase,
      Delivery.sendOrderResponse, natsPublish, resolverEnv, storeWith, sampleJson, rawRequest,
      sampleOrder]
  refine ⟨by simp [resolverEnv, storeWith, rawRequest, sampleOrder],
    by simp [resolverEnv, sampleJson], h, ?_⟩
  rw [h]
  simp [publishes, rawRequest]

/-- C4. The `order_response` listener is an overwrite-always put. If the payload decodes to
`order`, then afterwards a lookup of `order.OrderUID` returns `order` whatever was stored
before, every other key reads as before, and the trace of bus operations is unchanged (no
message is published); if the payload fails to decode, the whole state is unchanged. -/
theorem onOrderResponse_overwrites (env : Client.Env) (msg : Msg) (w : World) :
    (∀ order, env.json.unmarshalOrder msg.Data = .ok order →
      (Client.onOrderResponse env msg w).cache.get order.OrderUID = some order ∧
      (∀ other, other ≠ order.OrderUID →
        (Client.onOrderResponse env msg w).cache.get other = w.cache.get other) ∧
      (Client.onOrderResponse env msg w).trace = w.trace) ∧
    (∀ err, env.json.unmarshalOrder msg.Data = .error err →
      Client.onOrderResponse env msg w = w) := by
  constructor
  · intro order h
    have hw : Client.onOrderResponse env msg w =
        { w with cache := w.cache.put order.OrderUID order } := by
      simp only [Client.onOrderResponse, h]
    rw [hw]
    exact ⟨Cache.get_put_same _ _ _, fun other hne => Cache.get_put_other _ _ _ _ hne, rfl⟩
  · intro err h
    simp only [Client.onOrderResponse, h]

theorem onOrderResponse_overwrites_witness :
    relayEnv.json.unmarshalOrder sampleReply.Data = .ok sampleOrder ∧
    warmWorld.cache.get sampleOrder.OrderUID = some staleOrder ∧
    (Client.onOrderResponse relayEnv sampleReply warmWorld).cache.get sampleOrder.OrderUID =
      some sampleOrder ∧
    relayEnv.json.unmarshalOrder rawRequest.Data =
      .error "invalid character looking for beginning of value" ∧
    Client.onOrderResponse relayEnv rawRequest warmWorld = warmWorld :=
  have hdec : relayEnv.json.unmarshalOrder sampleReply.Data = .ok sampleOrder := by
    simp [relayEnv, sampleJson, sampleReply]
  have hbad : relayEnv.json.unmarshalOrder rawRequest.Data =
      .error "invalid character looking for beginning of value" := by
    have h1 : "b563feb7b2b84b6test" ≠ sampleOrderJSON := by decide
    have h2 : "b563feb7b2b84b6test" ≠ staleOrderJSON := by decide
    simp [relayEnv, sampleJson, rawRequest, h1, h2]
  ⟨hdec, by simp [warmWorld, Cache.get, sampleOrder],
   ((onOrderResponse_overwrites relayEnv sampleReply warmWorld).1 sampleOrder hdec).1,
   hbad, (onOrderResponse_overwrites relayEnv rawRequest warmWorld).2 _ hbad⟩

/-- C5. An empty identifier is rejected before any work: `orderHandler` answers 400 and
leaves the whole state (cache and trace of bus operations) as it was; for every non-empty
identifier the status is not 400. -/
theorem orderHandler_rejects_empty_identifier (env : Client.Env) (w : World) :
    (Client.orderHandler env "" w).1.status = 400 ∧
    (Client.orderHandler env "" w).2 = w ∧
    ∀ orderUID, orderUID ≠ "" → (Client.orderHandler env orderUID w).1.status ≠ 400 := by
  refine ⟨by simp [Client.orderHandler, Client.httpError, StatusBadRequest],
    by simp [Client.orderHandler], ?_⟩
  intro orderUID hne
  unfold Client.orderHandler
  rw [if_neg hne]
  split
  · simp [StatusInternalServerError]
  · dsimp only
    split <;> simp [StatusInternalServerError, StatusOK]

theorem orderHandler_rejects_empty_identifier_witness :
    (Client.orderHandler relayEnv "" warmWorld).1.status = 400 ∧
    (Client.orderHandler relayEnv "" warmWorld).2 = warmWorld ∧
    (Client.orderHandler relayEnv "b563feb7b2b84b6test" warmWorld).1.status ≠ 400 :=
  ⟨(orderHandler_rejects_empty_identifier relayEnv warmWorld).1,
   (orderHandler_rejects_empty_identifier relayEnv warmWorld).2.1,
   (orderHandler_rejects_empty_identifier relayEnv warmWorld).2.2 "b563feb7b2b84b6test"
     (by decide)⟩

/-- C6. A failed round trip is terminal and surfaces as 500: for a non-empty identifier that
is not cached, once the subscription and the publish went through, if the wait returns an
error (timeout) or the delivered payload does not decode, then `getOrder` returns an error,
`orderHandler` answers 500 with no body, and the bus saw exactly one subscribe, one publish
(the identifier, on `order_request`), one wait of 500ms and one unsubscribe: no retry. -/
theorem orderHandler_failed_round_trip (env : Client.Env) (w : World) (orderUID : String)
    (nonempty : orderUID ≠ "") (miss : w.cache.get orderUID = none)
    (subscribed : env.nc.subscribeSync "order_response" = none)
    (published : env.nc.publish "order_request" orderUID = none)
    (failed : (∃ err, env.nc.nextMsg "order_response" (500 * Millisecond) = .error err) ∨
      (∃ msg err, env.nc.nextMsg "order_response" (500 * Millisecond) = .ok msg ∧
        env.json.unmarshalOrder msg.Data = .error err)) :
    (∃ err, (Client.getOrder env orderUID w).1 = .error err) ∧
    (Client.orderHandler env orderUID w).1 = { status := 500, header := [], body := "" } ∧
    (Client.orderHandler env orderUID w).2.trace = w.trace ++
      [BusOp.subscribeSync "order_response", BusOp.publish "order_request" orderUID,
       BusOp.nextMsg "order_response" 500000000, BusOp.unsubscribe "order_response"] ∧
    publishes (Client.orderHandler env orderUID w).2.trace =
      publishes w.trace ++ [("order_request", orderUID)] := by
  have key : ∃ err, Client.getOrder env orderUID w = (.error err,
      { w with trace := w.trace ++
        [BusOp.subscribeSync "order_response", BusOp.publish "order_request" orderUID,
         BusOp.nextMsg "order_response" 500000000, BusOp.unsubscribe "order_response"] }) := by
    simp only [Millisecond] at failed
    rcases failed with ⟨err, h⟩ | ⟨msg, err, h, hd⟩
    · exact ⟨err, by
        simp [Client.getOrder, miss, natsSubscribeSync, natsPublish, subNextMsg, subUnsubscribe,
          subscribed, published, h, Millisecond]⟩
    · exact ⟨err, by
        simp [Client.getOrder, miss, natsSubscribeSync, natsPublish, subNextMsg, subUnsubscribe,
          subscribed, published, h, hd, Millisecond]⟩
  obtain ⟨err, hget⟩ := key
  have hh : Client.orderHandler env orderUID w =
      ({ status := 500, header := [], body := "" },
       { w with trace := w.trace ++
        [BusOp.subscribeSync "order_response", BusOp.publish "order_request" orderUID,
         BusOp.nextMsg "order_response" 500000000, BusOp.unsubscribe "order_response"] }) := by
    simp [Client.orderHandler, nonempty, hget, StatusInternalServerError]
  refine ⟨⟨err, by rw [hget]⟩, by rw [hh], by rw [hh], ?_⟩
  rw [hh, publishes_append]
  simp [publishes]

theorem orderHandler_failed_round_trip_witness :
    World.init.cache.get "b563feb7b2b84b6test" = none ∧
    relayEnvSilent.nc.nextMsg "order_response" (500 * Millisecond) = .error "nats: timeout" ∧
    (Client.orderHandler relayEnvSilent "b563feb7b2b84b6test" World.init).1 =
      { status := 500, header := [], body := "" } ∧
    (Client.orderHandler relayEnvSilent "b563feb7b2b84b6test" World.init).2.trace =
      World.init.trace ++
      [BusOp.subscribeSync "order_response",
       BusOp.publish "order_request" "b563feb7b2b84b6test",
       BusOp.nextMsg "order_response" 500000000, BusOp.unsubscribe "order_response"] ∧
    publishes (Client.orderHandler relayEnvSilent "b563feb7b2b84b6test" World.init).2.trace =
      publishes World.init.trace ++ [("order_request", "b563feb7b2b84b6test")] :=
  have miss : World.init.cache.get "b563feb7b2b84b6test" = none := by
    simp [World.init, Cache.get]
  ⟨miss, rfl,
   (orderHandler_failed_round_trip relayEnvSilent World.init "b563feb7b2b84b6test"
      (by decide) miss rfl rfl (Or.inl ⟨"nats: timeout", rfl⟩)).2⟩

/-- C7, as stated, fails in the direction from found to reply: the store resolves the
identifier of the request to a record, but that record does not encode as JSON (its payment
amount is NaN), and `handleOrderRequest` issues no bus operation at all. -/
theorem handleOrderRequest_found_but_silent :
    resolverEnvNaN.db.queryRow rawRequest.Data = .row nanOrder ∧
    Delivery.getOrderFromDatabase resolverEnvNaN rawRequest.Data = .ok (some nanOrder) ∧
    resolverEnvNaN.json.marshalOrder nanOrder = .error "json: unsupported value" ∧
    Delivery.handleOrderRequest resolverEnvNaN rawRequest [] = [] ∧
    publishes (Delivery.handleOrderRequest resolverEnvNaN rawRequest []) = [] := by
  have hq : resolverEnvNaN.db.queryRow rawRequest.Data = .row nanOrder := by
    simp [resolverEnvNaN, storeWith, rawRequest, nanOrder, sampleOrder]
  have h1 : nanOrder ≠ sampleOrder := by decide
  have h2 : nanOrder ≠ staleOrder := by decide
  have hm : resolverEnvNaN.json.marshalOrder nanOrder = .error "json: unsupported value" := by
    simp [resolverEnvNaN, sampleJson, h1, h2]
  have hh : Delivery.handleOrderRequest resolverEnvNaN rawRequest [] = [] := by
    simp [Delivery.handleOrderRequest, Delivery.getOrderFromDatabase,
      Delivery.sendOrderResponse, hq, hm]
  refine ⟨hq, by simp [Delivery.getOrderFromDatabase, hq], hm, hh, ?_⟩
  rw [hh]
  rfl

/-- C7, amended. The Backing Resolver replies if and only if the store finds a record and
that record encodes as JSON. When the lookup reports no rows or any store error,
`handleOrderRequest` issues no bus operation at all. When the lookup returns a record, it
issues exactly one operation, a publish whose payload is the record's JSON encoding, if the
record encodes, and no operation at all if the encoding fails. Hence a bus operation is
issued exactly when a record is found and encodes. -/
theorem handleOrderRequest_replies_iff_found_and_encoded (env : Delivery.Env) (msg : Msg)
    (trace : List BusOp) :
    ((env.db.queryRow msg.Data = .errNoRows ∨ ∃ err, env.db.queryRow msg.Data = .failure err) →
      Delivery.handleOrderRequest env msg trace = trace) ∧
    (∀ order, env.db.queryRow msg.Data = .row order →
      (∀ orderJSON, env.json.marshalOrder order = .ok orderJSON →
        ∃ subject, Delivery.handleOrderRequest env msg trace =
          trace ++ [BusOp.publish subject orderJSON]) ∧
      (∀ err, env.json.marshalOrder order = .error err →
        Delivery.handleOrderRequest env msg trace = trace)) ∧
    (Delivery.handleOrderRequest env msg trace ≠ trace ↔
      ∃ order orderJSON, env.db.queryRow msg.Data = .row order ∧
        env.json.marshalOrder order = .ok orderJSON) := by
  have silent : (env.db.queryRow msg.Data = .errNoRows ∨
      ∃ err, env.db.queryRow msg.Data = .failure err) →
      Delivery.handleOrderRequest env msg trace = trace := by
    rintro (h | ⟨err, h⟩) <;>
      simp [Delivery.handleOrderRequest, Delivery.getOrderFromDatabase, h]
  have unencoded : ∀ order err, env.db.queryRow msg.Data = .row order →
      env.json.marshalOrder order = .error err →
      Delivery.handleOrderRequest env msg trace = trace := by
    intro order err hq hm
    simp [Delivery.handleOrderRequest, Delivery.getOrderFromDatabase,
      Delivery.sendOrderResponse, hq, hm]
  refine ⟨silent, fun order hq => ⟨fun orderJSON hm => ⟨"order_response", ?_⟩,
    fun err hm => unencoded order err hq hm⟩, ?_, ?_⟩
  · exact Delivery.handleOrderRequest_found env msg trace order orderJSON hq hm
  · intro hne
    cases hq : env.db.queryRow msg.Data with
    | errNoRows => exact absurd (silent (Or.inl hq)) hne
    | failure err => exact absurd (silent (Or.inr ⟨err, hq⟩)) hne
    | row order =>
      cases hm : env.json.marshalOrder order with
      | error err => exact absurd (unencoded order err hq hm) hne
      | ok orderJSON => exact ⟨order, orderJSON, rfl, hm⟩
  · rintro ⟨order, orderJSON, hq, hm⟩
    rw [Delivery.handleOrderRequest_found env msg trace order orderJSON hq hm]
    simp

theorem handleOrderRequest_replies_iff_found_and_encoded_witness :
    resolverEnvDown.db.queryRow rawRequest.Data = .failure "pq: connection refused" ∧
    Delivery.handleOrderRequest resolverEnvDown rawRequest [] = [] ∧
    resolverEnv.db.queryRow jsonRequest.Data = .errNoRows ∧
    Delivery.handleOrderRequest resolverEnv jsonRequest [] = [] ∧
    resolverEnv.db.queryRow rawRequest.Data = .row sampleOrder ∧
    resolverEnv.json.marshalOrder sampleOrder = .ok sampleOrderJSON ∧
    Delivery.handleOrderRequest resolverEnv rawRequest [] ≠ [] ∧
    resolverEnvNaN.db.queryRow rawRequest.Data = .row nanOrder ∧
    resolverEnvNaN.json.marshalOrder nanOrder = .error "json: unsupported value" ∧
    Delivery.handleOrderRequest resolverEnvNaN rawRequest [] = [] :=
  have hdown : resolverEnvDown.db.queryRow rawRequest.Data = .failure "pq: connection refused" :=
    rfl
  have hrows : resolverEnv.db.queryRow jsonRequest.Data = .errNoRows := by
    have h1 : sampleOrderJSON ≠ "b563feb7b2b84b6test" := by decide
    simp [resolverEnv, storeWith, jsonRequest, sampleOrder, h1]
  have hfound : resolverEnv.db.queryRow rawRequest.Data = .row sampleOrder := by
    simp [resolverEnv, storeWith, rawRequest, sampleOrder]
  have henc : resolverEnv.json.marshalOrder sampleOrder = .ok sampleOrderJSON := by
    simp [resolverEnv, sampleJson]
  have hnan : resolverEnvNaN.db.queryRow rawRequest.Data = .row nanOrder := by
    simp [resolverEnvNaN, storeWith, rawRequest, nanOrder, sampleOrder]
  have hnanenc : resolverEnvNaN.json.marshalOrder nanOrder =
      .error "json: unsupported value" := by
    have h1 : nanOrder ≠ sampleOrder := by decide
    have h2 : nanOrder ≠ staleOrder := by decide
    simp [resolverEnvNaN, sampleJson, h1, h2]
  ⟨hdown,
   (handleOrderRequest_replies_iff_found_and_encoded resolverEnvDown rawRequest []).1
     (Or.inr ⟨_, hdown⟩),
   hrows,
   (handleOrderRequest_replies_iff_found_and_encoded resolverEnv jsonRequest []).1
     (Or.inl hrows),
   hfound, henc,
   (handleOrderRequest_replies_iff_found_and_encoded resolverEnv rawRequest []).2.2.mpr
     ⟨sampleOrder, sampleOrderJSON, hfound, henc⟩,
   hnan, hnanenc,
   ((handleOrderRequest_replies_iff_found_and_encoded resolverEnvNaN rawRequest []).2.1
     nanOrder hnan).2 _ hnanenc⟩

/-- C8, as stated, fails for a raw identifier: a request whose payload is the bare
identifier `b563feb7b2b84b6test` does not decode as an Order, and the listener publishes
nothing, neither the cached order to the reply address when that identifier is cached nor
the payload to `order_query` when it is not. -/
theorem onOrderRequest_raw_identifier_dropped :
    warmWorld.cache.get rawRequest.Data = some staleOrder ∧
    publishes (Client.onOrderRequest relayEnv rawRequest warmWorld).trace = [] ∧
    World.init.cache.get rawRequest.Data = none ∧
    publishes (Client.onOrderRequest relayEnv rawRequest World.init).trace = [] := by
  have h1 : "b563feb7b2b84b6test" ≠ sampleOrderJSON := by decide
  have h2 : "b563feb7b2b84b6test" ≠ staleOrderJSON := by decide
  refine ⟨by simp [warmWorld, rawRequest, Cache.get], ?_,
    by simp [World.init, Cache.get], ?_⟩ <;>
  simp [Client.onOrderRequest, relayEnv, sampleJson, rawRequest, h1, h2, warmWorld, World.init,
    publishes]

/-- C8, amended. The `order_request` listener acts only on a payload that decodes as an
Order `request`. If `request.OrderUID` is cached, it issues one publish of the cached
order's JSON encoding to the reply address of the message (and nothing if that encoding
fails); if it is not cached, it issues one publish of the original payload to `order_query`
and nothing else. A payload that does not decode, such as a raw identifier, changes nothing
and publishes nothing. -/
theorem onOrderRequest_answers_or_forwards (env : Client.Env) (msg : Msg) (w : World) :
    (∀ request, env.json.unmarshalOrder msg.Data = .ok request →
      (∀ cached, w.cache.get request.OrderUID = some cached →
        (∀ cachedJSON, env.json.marshalOrder cached = .ok cachedJSON →
          Client.onOrderRequest env msg w =
            { w with trace := w.trace ++ [BusOp.publish msg.Reply cachedJSON] }) ∧
        (∀ err, env.json.marshalOrder cached = .error err →
          Client.onOrderRequest env msg w = w)) ∧
      (w.cache.get request.OrderUID = none →
        Client.onOrderRequest env msg w =
          { w with trace := w.trace ++ [BusOp.publish "order_query" msg.Data] })) ∧
    (∀ err, env.json.unmarshalOrder msg.Data = .error err →
      Client.onOrderRequest env msg w = w) := by
  refine ⟨fun request hreq => ⟨fun cached hit => ⟨fun cachedJSON hm => ?_, fun err hm => ?_⟩,
    fun miss => ?_⟩, fun err herr => ?_⟩
  · simp [Client.onOrderRequest, Client.sendOrderResponse, natsPublish, hreq, hit, hm]
  · simp [Client.onOrderRequest, Client.sendOrderResponse, hreq, hit, hm]
  · simp [Client.onOrderRequest, natsPublish, hreq, miss]
  · simp [Client.onOrderRequest, herr]

theorem onOrderRequest_answers_or_forwards_witness :
    relayEnv.json.unmarshalOrder jsonRequest.Data = .ok sampleOrder ∧
    warmWorld.cache.get sampleOrder.OrderUID = some staleOrder ∧
    relayEnv.json.marshalOrder staleOrder = .ok staleOrderJSON ∧
    Client.onOrderRequest relayEnv jsonRequest warmWorld =
      { warmWorld with
        trace := warmWorld.trace ++ [BusOp.publish jsonRequest.Reply staleOrderJSON] } ∧
    World.init.cache.get sampleOrder.OrderUID = none ∧
    Client.onOrderRequest relayEnv jsonRequest World.init =
      { World.init with
        trace := World.init.trace ++ [BusOp.publish "order_query" jsonRequest.Data] } :=
  have hdec : relayEnv.json.unmarshalOrder jsonRequest.Data = .ok sampleOrder := by
    simp [relayEnv, sampleJson, jsonRequest]
  have hit : warmWorld.cache.get sampleOrder.OrderUID = some staleOrder := by
    simp [warmWorld, Cache.get, sampleOrder]
  have henc : relayEnv.json.marshalOrder staleOrder = .ok staleOrderJSON := by
    have h1 : staleOrder ≠ sampleOrder := by decide
    simp [relayEnv, sampleJson, h1]
  have miss : World.init.cache.get sampleOrder.OrderUID = none := by
    simp [World.init, Cache.get]
  ⟨hdec, hit, henc,
   (((onOrderRequest_answers_or_forwards relayEnv jsonRequest warmWorld).1 sampleOrder
      hdec).1 staleOrder hit).1 staleOrderJSON henc,
   miss,
   ((onOrderRequest_answers_or_forwards relayEnv jsonRequest World.init).1 sampleOrder
      hdec).2 miss⟩

/-- C9. The HTTP lookup never writes the cache: whatever the identifier and whatever the bus
and the decoder return (hit, reply decoded, timeout, decode failure, transport error), the
cache after `getOrder` and after `orderHandler` is the cache before; the `order_request`
listener leaves it unchanged too, so only the `order_response` listener writes it. -/
theorem http_lookup_never_writes_cache (env : Client.Env) (orderUID : String) (msg : Msg)
    (w : World) :
    (Client.getOrder env orderUID w).2.cache = w.cache ∧
    (Client.orderHandler env orderUID w).2.cache = w.cache ∧
    (Client.onOrderRequest env msg w).cache = w.cache :=
  ⟨Client.getOrder_cache env orderUID w, Client.orderHandler_cache env orderUID w,
   Client.onOrderRequest_cache env msg w⟩

/-- C10. Key/record agreement is an invariant of the Front Relay cache: after any sequence
of HTTP lookups, `order_request` messages and `order_response` messages handled from the
empty cache, every entry of the cache holds an order whose `OrderUID` is its key (so every
successful read under a key returns an order with that identifier), and a key that is
present stays present after any further events. -/
theorem cache_key_record_agreement (events more : List Client.Event) :
    (∀ entry ∈ (Client.run World.init events).cache, entry.2.OrderUID = entry.1) ∧
    (∀ key order, (Client.run World.init events).cache.get key = some order →
      order.OrderUID = key) ∧
    (∀ key, ((Client.run World.init events).cache.get key).isSome →
      ((Client.run World.init (events ++ more)).cache.get key).isSome) := by
  have agree := Client.run_entries_agree events World.init (by simp [World.init])
  refine ⟨agree, fun key order hget => agree (key, order) (Cache.mem_of_get _ _ _ hget), ?_⟩
  intro key hkey
  rw [Client.run_append]
  exact Client.run_keeps_keys more _ key hkey

theorem cache_key_record_agreement_witness :
    (Client.run World.init
      [.orderResponse relayEnv sampleReply,
       .httpLookup relayEnv "b563feb7b2b84b6test"]).cache.get "b563feb7b2b84b6test" =
      some sampleOrder ∧
    sampleOrder.OrderUID = "b563feb7b2b84b6test" ∧
    ((Client.run World.init
      ([.orderResponse relayEnv sampleReply, .httpLookup relayEnv "b563feb7b2b84b6test"] ++
       [.orderRequest relayEnv rawRequest, .httpLookup relayEnvSilent "another-order-uid"])
      ).cache.get "b563feb7b2b84b6test").isSome :=
  have hget : (Client.run World.init
      [.orderResponse relayEnv sampleReply,
       .httpLookup relayEnv "b563feb7b2b84b6test"]).cache.get "b563feb7b2b84b6test" =
      some sampleOrder := by
    have huid : sampleOrder.OrderUID = "b563feb7b2b84b6test" := rfl
    have h1 : Client.onOrderResponse relayEnv sampleReply World.init =
        { cache := [("b563feb7b2b84b6test", sampleOrder)], trace := [] } := by
      simp [Client.onOrderResponse, relayEnv, sampleJson, sampleReply, World.init, Cache.put,
        huid]
    simp only [Client.run, List.foldl, Client.step, Client.orderHandler_cache, h1]
    simp [Cache.get]
  ⟨hget,
   (cache_key_record_agreement
      [.orderResponse relayEnv sampleReply, .httpLookup relayEnv "b563feb7b2b84b6test"]
      []).2.1 _ _ hget,
   (cache_key_record_agreement
      [.orderResponse relayEnv sampleReply, .httpLookup relayEnv "b563feb7b2b84b6test"]
      [.orderRequest relayEnv rawRequest, .httpLookup relayEnvSilent "another-order-uid"]).2.2
      "b563feb7b2b84b6test" (by rw [hget]; rfl)⟩
